import Mathlib

/-!
  Shallow embedding of `src/proxy.py`, a Flask credentialing reverse proxy for
  AWS CodeArtifact, together with proofs about the properties claimed by its
  specification.

  Modelling notes:
  * Time is an abstract `Nat` (seconds).  `cachetools.TTLCache` stores the
    function result under the argument tuple with its insertion time; a stored
    entry is valid while `now < insertedAt + ttl` and is treated as a miss
    (and overwritten by the next insert) afterwards.  The `maxsize=100` LRU
    bound is not modelled: every claim below concerns at most two keys, so the
    capacity eviction never fires in the scenarios considered.
  * The `@cached` decorator caches the *return value* of `get_token`,
    including the `None` returned on a provider failure.  This is modelled
    faithfully: the cache maps a key tuple to `Option String × Time`.
  * The CredentialProvider (boto3 `get_authorization_token`) is external: each
    `get_token` call takes the outcome the provider would produce on this
    attempt (`Except ErrInfo String`) as an oracle argument, and every step
    function reports whether the provider was actually invoked.
  * HTTP headers are association lists of (name, value) pairs, matching the
    Python `dict(request.headers)` up to insertion order.
-/

namespace CodeArtifactProxy

/-- Abstract time in seconds. -/
abbrev Time := Nat

/-- `TOKEN_VALIDITY = 43200` in `proxy.py`: the shared TTL (12 h in seconds)
for both the cache and the requested token duration. -/
def TOKEN_VALIDITY : Nat := 43200

/-- `PYPI_BASE = "https://pypi.org/simple"` in `proxy.py`. -/
def PYPI_BASE : String := "https://pypi.org/simple"

/-- `PIP_PASS_HEADERS = {"user-agent", "cache-control"}` in `proxy.py`:
the allow-list of inbound headers forwarded to the pypi HEAD probe. -/
def PIP_PASS_HEADERS : List String := ["user-agent", "cache-control"]

/-- A Python exception as recorded in `TOKEN_ERRORS`: `str(error)` and
`type(error).__name__`. -/
structure ErrInfo where
  msg : String
  typeName : String
deriving DecidableEq, Repr

/-- The outcome the external CredentialProvider would produce on one attempt:
an authorization token string, or a raised exception. -/
abbrev ProviderResult := Except ErrInfo String

/-- The argument tuple `(account_id, region, domain, repo)` under which
`cachetools.cached` memoizes `get_token`. -/
abbrev KeyTuple := String × String × String × String

/-! ### Python string primitives

Python's `str.startswith`, `str.endswith` and `str.lower` (on the ASCII
header names and paths involved here) are embedded at the character-list
level so that they compute. -/

/-- Python `s.startswith(pre)`. -/
def pyStartsWith (s pre : String) : Bool :=
  pre.data.isPrefixOf s.data

/-- Python `s.endswith(suf)`. -/
def pyEndsWith (s suf : String) : Bool :=
  suf.data.isSuffixOf s.data

/-- Python `s.lower()` (per-character lowercase). -/
def pyLower (s : String) : String :=
  ⟨s.data.map Char.toLower⟩

/-! ### Association-list primitives (model of Python `dict`) -/

def alookup {κ : Type} {α : Type} [DecidableEq κ] (k : κ) :
    List (κ × α) → Option α
  | [] => none
  | (k', v) :: rest => if k' = k then some v else alookup k rest

def ainsert {κ : Type} {α : Type} [DecidableEq κ] (k : κ) (v : α) :
    List (κ × α) → List (κ × α)
  | [] => [(k, v)]
  | (k', v') :: rest =>
      if k' = k then (k, v) :: rest else (k', v') :: ainsert k v rest

def aerase {κ : Type} {α : Type} [DecidableEq κ] (k : κ) :
    List (κ × α) → List (κ × α)
  | [] => []
  | (k', v') :: rest =>
      if k' = k then aerase k rest else (k', v') :: aerase k rest

/-! ### Cache / error-map state -/

/-- The process-wide mutable state of `proxy.py`:
`cache` is the `TTLCache` behind `@cached` on `get_token` (keyed by the
argument tuple, storing the returned `Optional[str]` with its insertion
time); `tokenErrors` is the `TOKEN_ERRORS` dict keyed by the
`get_cache_key` string. -/
structure ProxyState where
  cache : List (KeyTuple × (Option String × Time))
  tokenErrors : List (String × ErrInfo)
deriving DecidableEq, Repr

/-- `get_cache_key` from `proxy.py`:
`f"{str(account_id)}-{region}-{domain}-{repo}"`. -/
def get_cache_key (account_id region domain repo : String) : String :=
  account_id ++ "-" ++ region ++ "-" ++ domain ++ "-" ++ repo

/-- TTLCache lookup: a stored entry answers while `now < insertedAt + ttl`,
otherwise the entry has expired and the lookup is a miss. -/
def cacheLookup (st : ProxyState) (now : Time) (k : KeyTuple) :
    Option (Option String) :=
  match alookup k st.cache with
  | some (v, t) => if now < t + TOKEN_VALIDITY then some v else none
  | none => none

/-- Result of one `get_token` call: the returned `Optional[str]`, the state
afterwards, and whether the CredentialProvider was invoked. -/
structure TokenCallResult where
  result : Option String
  state : ProxyState
  providerCalled : Bool
deriving DecidableEq, Repr

/-- `get_token` from `proxy.py`, as memoized by `@cached(TTLCache(...))`:
on a cache hit (non-expired stored value, `None` included) return it with no
provider call; on a miss, clear any `TOKEN_ERRORS` entry for the key, invoke
the provider, and either return and cache the token, or record the exception
in `TOKEN_ERRORS`, cache `None`, and return `None`. -/
def get_token (provider : ProviderResult) (now : Time)
    (account_id region domain repo : String) (st : ProxyState) :
    TokenCallResult :=
  let k : KeyTuple := (account_id, region, domain, repo)
  let cache_key := get_cache_key account_id region domain repo
  match cacheLookup st now k with
  | some v => ⟨v, st, false⟩
  | none =>
      let errs := aerase cache_key st.tokenErrors
      match provider with
      | .ok token =>
          ⟨some token,
           ⟨ainsert k (some token, now) st.cache, errs⟩, true⟩
      | .error e =>
          ⟨none,
           ⟨ainsert k (none, now) st.cache, ainsert cache_key e errs⟩, true⟩

/-- The path normalization inside `generate_url`:
`if path.startswith("/"): path = path[1:]`. -/
def stripLeadingSlash (path : String) : String :=
  if pyStartsWith path "/" then path.drop 1 else path

/-- `generate_url` from `proxy.py`: strip at most one leading `/` from the
path, fetch a token, raise (here: `.error`) when the token is falsy
(`None` or the empty string), otherwise build the authenticated URL. -/
def generate_url (provider : ProviderResult) (now : Time)
    (account_id region domain repo path : String) (st : ProxyState) :
    Except String String × ProxyState × Bool :=
  let path := stripLeadingSlash path
  let r := get_token provider now account_id region domain repo st
  match r.result with
  | some token =>
      if token = "" then
        (.error ("Failed to get token for " ++
            get_cache_key account_id region domain repo),
         r.state, r.providerCalled)
      else
        (.ok ("https://aws:" ++ token ++ "@" ++ domain ++ "-" ++ account_id ++
              ".d.codeartifact." ++ region ++ ".amazonaws.com/pypi/" ++
              repo ++ "/simple/" ++ path),
         r.state, r.providerCalled)
  | none =>
      (.error ("Failed to get token for " ++
          get_cache_key account_id region domain repo),
       r.state, r.providerCalled)

/-! ### Header handling of the forwarding functions and the mirror probe -/

/-- An HTTP header map, as `dict(request.headers)`: (name, value) pairs. -/
abbrev Headers := List (String × String)

/-- The `Host`-deletion in `proxy_get` / `proxy_post`:
`if "Host" in headers: del headers["Host"]`. -/
def deleteHost (hs : Headers) : Headers :=
  hs.filter (fun p => p.1 ≠ "Host")

/-- The headers `proxy_get` actually sends upstream: the inbound headers
with the `Host` entry deleted (`requests.get(url, headers=headers)`). -/
def proxy_get_sent_headers (hs : Headers) : Headers :=
  deleteHost hs

/-- The headers `proxy_post` actually sends upstream.  The function computes
a `Host`-stripped copy, but the `requests.post` call passes
`request.headers` — the original, unmodified inbound headers. -/
def proxy_post_sent_headers (hs : Headers) : Headers :=
  hs

/-- The headers the mirror-existence HEAD probe sends, from the `proxy`
handler: `{k: v for k, v in request.headers.items() if k.lower() in
PIP_PASS_HEADERS}`. -/
def pip_headers (hs : Headers) : Headers :=
  hs.filter (fun p => pyLower p.1 ∈ PIP_PASS_HEADERS)

/-! ### The GET branch of the `proxy` route handler and `healthz` -/

/-- Outcome of the `requests.head(pypi_url, ...)` probe: a status code, or a
raised exception (timeout, connection failure). -/
inductive ProbeOutcome where
  | status (code : Nat)
  | err
deriving DecidableEq, Repr

/-- What the GET branch of the `proxy` handler answers: a 302 redirect, or —
when `generate_url` raises and the outer `except` runs —
`jsonify({"error": str(e)}), 500`. -/
inductive HttpResult where
  | redirect (url : String)
  | serverError (msg : String)
deriving DecidableEq, Repr

/-- The GET branch of the `proxy` route handler in `proxy.py`.  For a path
ending in `/` it HEAD-probes `f"{PYPI_BASE}/{path}"`; a 2xx answer redirects
to the mirror with no credential work; any other status, or a raised probe
exception (caught and only logged), falls through to a redirect to
`generate_url(...)`; a `generate_url` failure becomes a 500 error body.
Returns the response, the state afterwards, and whether the
CredentialProvider was invoked. -/
def proxy_handle_get (probe : ProbeOutcome) (provider : ProviderResult)
    (now : Time) (account_id region domain repo path : String)
    (st : ProxyState) : HttpResult × ProxyState × Bool :=
  let fallthrough :=
    match generate_url provider now account_id region domain repo path st with
    | (.ok url, st', called) => (.redirect url, st', called)
    | (.error msg, st', called) => (.serverError msg, st', called)
  if pyEndsWith path "/" then
    match probe with
    | .status c =>
        if 200 ≤ c ∧ c < 300 then
          (.redirect (PYPI_BASE ++ "/" ++ path), st, false)
        else fallthrough
    | .err => fallthrough
  else fallthrough

/-- The body of the `healthz` JSON document: either the error map (key ↦
`str(error)` and `type(error).__name__`) or the healthy cache summary.
`cacheSize` is `len(get_token.cache)`; the further `cache_info` statistics
are summary data carried by no field here because the code falls back to
`{}` when the decorator does not expose them — in either shape no token
value occurs in the body. -/
inductive HealthBody where
  | unhealthy (errors : List (String × String × String))
  | healthy (cacheSize : Nat)
deriving DecidableEq, Repr

/-- The `healthz` route handler: with any `TOKEN_ERRORS` present answer 500
and the full error map, otherwise answer 200 with the cache summary. -/
def healthz (st : ProxyState) : Nat × HealthBody :=
  if st.tokenErrors.isEmpty then
    (200, .healthy st.cache.length)
  else
    (500, .unhealthy (st.tokenErrors.map fun e => (e.1, e.2.msg, e.2.typeName)))

/-! ## Helper lemmas -/

@[simp] theorem alookup_nil {κ α : Type} [DecidableEq κ] (k : κ) :
    alookup (α := α) k [] = none := rfl

theorem alookup_ainsert_self {κ α : Type} [DecidableEq κ] (k : κ) (v : α) :
    ∀ l : List (κ × α), alookup k (ainsert k v l) = some v := by
  intro l
  induction l with
  | nil => simp [ainsert, alookup]
  | cons hd tl ih =>
      obtain ⟨k', v'⟩ := hd
      by_cases h : k' = k <;> simp [ainsert, alookup, h, ih]

theorem alookup_aerase_self {κ α : Type} [DecidableEq κ] (k : κ) :
    ∀ l : List (κ × α), alookup k (aerase k l) = none := by
  intro l
  induction l with
  | nil => simp [aerase]
  | cons hd tl ih =>
      obtain ⟨k₀, v₀⟩ := hd
      by_cases h : k₀ = k <;> simp [aerase, alookup, h, ih]

theorem alookup_aerase_ne {κ α : Type} [DecidableEq κ] (k k' : κ)
    (hne : k ≠ k') : ∀ l : List (κ × α),
    alookup k' (aerase k l) = alookup k' l := by
  intro l
  induction l with
  | nil => simp [aerase]
  | cons hd tl ih =>
      obtain ⟨k₀, v₀⟩ := hd
      by_cases h : k₀ = k
      · subst h
        simp [aerase, alookup, hne, ih]
      · simp [aerase, alookup, h, ih]

theorem cacheLookup_of_alookup_none (st : ProxyState) (now : Time)
    (k : KeyTuple) (h : alookup k st.cache = none) :
    cacheLookup st now k = none := by
  simp [cacheLookup, h]

theorem cacheLookup_ainsert_self (c : List (KeyTuple × (Option String × Time)))
    (errs : List (String × ErrInfo)) (k : KeyTuple) (v : Option String)
    (t now : Time) (h : now < t + TOKEN_VALIDITY) :
    cacheLookup ⟨ainsert k (v, t) c, errs⟩ now k = some v := by
  simp [cacheLookup, alookup_ainsert_self, h]

theorem get_token_hit (provider : ProviderResult) (now : Time)
    (a r d p : String) (st : ProxyState) (v : Option String)
    (h : cacheLookup st now (a, r, d, p) = some v) :
    get_token provider now a r d p st = ⟨v, st, false⟩ := by
  simp [get_token, h]

theorem get_token_miss_ok (tok : String) (now : Time)
    (a r d p : String) (st : ProxyState)
    (h : cacheLookup st now (a, r, d, p) = none) :
    get_token (.ok tok) now a r d p st =
      ⟨some tok,
       ⟨ainsert (a, r, d, p) (some tok, now) st.cache,
        aerase (get_cache_key a r d p) st.tokenErrors⟩, true⟩ := by
  simp [get_token, h]

theorem append_sep_inj {a a' b b' : List Char}
    (ha : '-' ∉ a) (ha' : '-' ∉ a') :
    a ++ '-' :: b = a' ++ '-' :: b' → a = a' ∧ b = b' := by
  induction a generalizing a' with
  | nil =>
      intro h
      cases a' with
      | nil => simpa using h
      | cons c t =>
          exfalso
          simp only [List.nil_append, List.cons_append, List.cons.injEq] at h
          exact ha' (h.1 ▸ List.mem_cons_self c t)
  | cons c t ih =>
      intro h
      cases a' with
      | nil =>
          exfalso
          simp only [List.cons_append, List.nil_append, List.cons.injEq] at h
          exact ha (h.1 ▸ List.mem_cons_self c t)
      | cons c' t' =>
          simp only [List.cons_append, List.cons.injEq] at h
          have hta : '-' ∉ t := fun hm => ha (List.mem_cons_of_mem c hm)
          have hta' : '-' ∉ t' := fun hm => ha' (List.mem_cons_of_mem c' hm)
          obtain ⟨hts, hbs⟩ := ih hta hta' h.2
          exact ⟨by rw [h.1, hts], hbs⟩

/-! ## Claims -/

/-- **C1.** For every repository key, calling `get_token` twice within the
TTL window issues at most one CredentialProvider call: a first call that
misses the cache and stores a fresh token makes the second call (whatever
its provider would answer) return that cached token immediately, with no
provider invocation and no state change. -/
theorem C1_get_token_memoized_within_ttl
    (prov2 : ProviderResult) (t0 t1 : Time) (tok : String)
    (a r d p : String) (st : ProxyState)
    (hmiss : alookup (a, r, d, p) st.cache = none)
    (httl : t1 < t0 + TOKEN_VALIDITY) :
    (get_token (.ok tok) t0 a r d p st).result = some tok ∧
    (get_token (.ok tok) t0 a r d p st).providerCalled = true ∧
    get_token prov2 t1 a r d p (get_token (.ok tok) t0 a r d p st).state =
      ⟨some tok, (get_token (.ok tok) t0 a r d p st).state, false⟩ := by
  have h0 : cacheLookup st t0 (a, r, d, p) = none :=
    cacheLookup_of_alookup_none st t0 _ hmiss
  have e1 := get_token_miss_ok tok t0 a r d p st h0
  refine ⟨by rw [e1], by rw [e1], ?_⟩
  rw [e1]
  exact get_token_hit prov2 t1 a r d p _ (some tok)
    (cacheLookup_ainsert_self _ _ _ _ _ _ httl)

/-- Witness for C1 at a concrete key, token and pair of times. -/
theorem C1_get_token_memoized_within_ttl_witness :
    (get_token (.ok "tokval") 0 "123" "us-east-1" "mydom" "myrepo"
        ⟨[], []⟩).result = some "tokval" ∧
    (get_token (.ok "tokval") 0 "123" "us-east-1" "mydom" "myrepo"
        ⟨[], []⟩).providerCalled = true ∧
    get_token (.error ⟨"late", "Err"⟩) 7 "123" "us-east-1" "mydom" "myrepo"
        (get_token (.ok "tokval") 0 "123" "us-east-1" "mydom" "myrepo"
          ⟨[], []⟩).state =
      ⟨some "tokval",
       (get_token (.ok "tokval") 0 "123" "us-east-1" "mydom" "myrepo"
         ⟨[], []⟩).state, false⟩ :=
  C1_get_token_memoized_within_ttl (.error ⟨"late", "Err"⟩) 0 7 "tokval"
    "123" "us-east-1" "mydom" "myrepo" ⟨[], []⟩ rfl (by decide)

/-- **C2** (claim as stated is false of the code). After a failed refresh,
the memoizing decorator has cached the returned `None` for the full TTL: a
subsequent `get_token` call within the TTL — here with a provider that
would now succeed — performs *no* new refresh attempt, returns the cached
`None`, and leaves the key in the health report, which still answers 500. -/
theorem C2_failed_refresh_never_retried_within_ttl :
    (get_token (.error ⟨"boom", "ClientError"⟩) 0 "1" "us" "d" "r"
        ⟨[], []⟩).result = none ∧
    (healthz (get_token (.error ⟨"boom", "ClientError"⟩) 0 "1" "us" "d" "r"
        ⟨[], []⟩).state).1 = 500 ∧
    get_token (.ok "tok") 5 "1" "us" "d" "r"
        (get_token (.error ⟨"boom", "ClientError"⟩) 0 "1" "us" "d" "r"
          ⟨[], []⟩).state =
      ⟨none,
       (get_token (.error ⟨"boom", "ClientError"⟩) 0 "1" "us" "d" "r"
         ⟨[], []⟩).state, false⟩ ∧
    (healthz (get_token (.ok "tok") 5 "1" "us" "d" "r"
        (get_token (.error ⟨"boom", "ClientError"⟩) 0 "1" "us" "d" "r"
          ⟨[], []⟩).state).state).1 = 500 := by
  decide

/-- **C3** (claim as stated is false of the code): two distinct key tuples
whose fields contain the `-` separator produce the same cache-key string. -/
theorem C3_cache_key_collision_counterexample :
    get_cache_key "1" "us-east" "1-dom" "r" =
      get_cache_key "1" "us" "east-1-dom" "r" ∧
    (("1", "us-east", "1-dom", "r") : KeyTuple) ≠
      ("1", "us", "east-1-dom", "r") := by
  decide

/-- **C3 amended.** `get_cache_key` is injective on tuples whose
account-id, region and domain fields contain no `-`; in general the `-`
separator does occur inside fields (AWS regions contain it), and distinct
tuples may then collide (see the counterexample). -/
theorem C3_cache_key_injective_on_separator_free_fields
    (a r d p a' r' d' p' : String)
    (ha : '-' ∉ a.data) (hr : '-' ∉ r.data) (hd : '-' ∉ d.data)
    (ha' : '-' ∉ a'.data) (hr' : '-' ∉ r'.data) (hd' : '-' ∉ d'.data)
    (h : get_cache_key a r d p = get_cache_key a' r' d' p') :
    a = a' ∧ r = r' ∧ d = d' ∧ p = p' := by
  have hsep : ("-" : String).data = ['-'] := rfl
  have hdata : a.data ++ '-' :: (r.data ++ '-' :: (d.data ++ '-' :: p.data)) =
      a'.data ++ '-' :: (r'.data ++ '-' :: (d'.data ++ '-' :: p'.data)) := by
    have hc := congrArg String.data h
    simpa [get_cache_key, String.data_append, hsep, List.append_assoc]
      using hc
  obtain ⟨h1, h23⟩ := append_sep_inj ha ha' hdata
  obtain ⟨h2, h34⟩ := append_sep_inj hr hr' h23
  obtain ⟨h3, h4⟩ := append_sep_inj hd hd' h34
  exact ⟨String.ext h1, String.ext h2, String.ext h3, String.ext h4⟩

/-- Witness for the amended C3 at concrete separator-free fields. -/
theorem C3_cache_key_injective_on_separator_free_fields_witness :
    ("1" : String) = "1" ∧ ("us" : String) = "us" ∧
    ("dom" : String) = "dom" ∧ ("repo" : String) = "repo" :=
  C3_cache_key_injective_on_separator_free_fields
    "1" "us" "dom" "repo" "1" "us" "dom" "repo"
    (by decide) (by decide) (by decide) (by decide) (by decide) (by decide)
    rfl

/-- **C4.** For a GET whose path ends in `/`: a 2xx mirror HEAD probe makes
the handler redirect to the mirror URL with no CredentialProvider call and
no state change; every failing probe — any non-2xx status, or a raised
probe exception — is handled identically to the exception case (the probe
outcome never fails the request by itself); and with any failing probe the
handler redirects to the authenticated private-repository URL whenever the
token lookup yields a usable token. -/
theorem C4_trailing_slash_mirror_routing
    (probe : ProbeOutcome) (provider : ProviderResult) (now : Time)
    (a r d p path : String) (st : ProxyState)
    (hdir : pyEndsWith path "/" = true) :
    (∀ c, probe = .status c → 200 ≤ c → c < 300 →
      proxy_handle_get probe provider now a r d p path st =
        (.redirect (PYPI_BASE ++ "/" ++ path), st, false)) ∧
    (probe = .err ∨ (∃ c, probe = .status c ∧ (c < 200 ∨ 300 ≤ c)) →
      proxy_handle_get probe provider now a r d p path st =
        proxy_handle_get .err provider now a r d p path st) ∧
    (∀ tok, (get_token provider now a r d p st).result = some tok →
      tok ≠ "" →
      probe = .err ∨ (∃ c, probe = .status c ∧ (c < 200 ∨ 300 ≤ c)) →
      proxy_handle_get probe provider now a r d p path st =
        (.redirect ("https://aws:" ++ tok ++ "@" ++ d ++ "-" ++ a ++
            ".d.codeartifact." ++ r ++ ".amazonaws.com/pypi/" ++ p ++
            "/simple/" ++ stripLeadingSlash path),
         (get_token provider now a r d p st).state,
         (get_token provider now a r d p st).providerCalled)) := by
  refine ⟨?_, ?_, ?_⟩
  · intro c hc h200 h300
    subst hc
    simp [proxy_handle_get, hdir, h200, h300]
  · rintro (hp | ⟨c, hp, hc⟩)
    · rw [hp]
    · subst hp
      have hnot : ¬(200 ≤ c ∧ c < 300) := by omega
      simp [proxy_handle_get, hdir, hnot]
  · intro tok htok hne hfail
    rcases hfail with hp | ⟨c, hp, hc⟩
    · subst hp
      simp [proxy_handle_get, hdir, generate_url, htok, hne]
    · subst hp
      have hnot : ¬(200 ≤ c ∧ c < 300) := by omega
      simp [proxy_handle_get, hdir, hnot, generate_url, htok, hne]

/-- Witness for C4: a concrete GET for `django/` falls through to the
authenticated redirect on a 500 probe answer, and is redirected to the
mirror on a 200 probe answer. -/
theorem C4_trailing_slash_mirror_routing_witness :
    proxy_handle_get (.status 500) (.ok "SECRET") 0 "123" "us" "dom" "repo"
        "django/" ⟨[], []⟩ =
      (.redirect ("https://aws:" ++ "SECRET" ++ "@" ++ "dom" ++ "-" ++
          "123" ++ ".d.codeartifact." ++ "us" ++ ".amazonaws.com/pypi/" ++
          "repo" ++ "/simple/" ++ stripLeadingSlash "django/"),
       (get_token (.ok "SECRET") 0 "123" "us" "dom" "repo" ⟨[], []⟩).state,
       (get_token (.ok "SECRET") 0 "123" "us" "dom" "repo"
         ⟨[], []⟩).providerCalled) ∧
    proxy_handle_get (.status 200) (.ok "SECRET") 0 "123" "us" "dom" "repo"
        "django/" ⟨[], []⟩ =
      (.redirect (PYPI_BASE ++ "/" ++ "django/"), ⟨[], []⟩, false) :=
  ⟨(C4_trailing_slash_mirror_routing (.status 500) (.ok "SECRET") 0
      "123" "us" "dom" "repo" "django/" ⟨[], []⟩ (by decide)).2.2
      "SECRET" (by decide) (by decide) (Or.inr ⟨500, rfl, by decide⟩),
   (C4_trailing_slash_mirror_routing (.status 200) (.ok "SECRET") 0
      "123" "us" "dom" "repo" "django/" ⟨[], []⟩ (by decide)).1
      200 rfl (by decide) (by decide)⟩

/-- **C5.** `generate_url` strips at most one leading `/` from the relative
path and, when the token lookup yields a usable token, returns exactly
`https://aws:{token}@{domain}-{account}.d.codeartifact.{region}.amazonaws.com/pypi/{repo}/simple/{path}`
with the normalized path. -/
theorem C5_generate_url_exact_shape
    (provider : ProviderResult) (now : Time)
    (account_id region domain repo path tok : String) (st : ProxyState)
    (htok : (get_token provider now account_id region domain repo st).result
      = some tok)
    (hne : tok ≠ "") :
    (generate_url provider now account_id region domain repo path st).1 =
      .ok ("https://aws:" ++ tok ++ "@" ++ domain ++ "-" ++ account_id ++
        ".d.codeartifact." ++ region ++ ".amazonaws.com/pypi/" ++ repo ++
        "/simple/" ++ stripLeadingSlash path) ∧
    (∀ q : String, stripLeadingSlash ("/" ++ q) = q) ∧
    (pyStartsWith path "/" = false → stripLeadingSlash path = path) := by
  have hsep : ("/" : String).data = ['/'] := rfl
  refine ⟨?_, ?_, ?_⟩
  · simp [generate_url, htok, hne]
  · intro q
    have hpre : pyStartsWith ("/" ++ q) "/" = true := by
      simp [pyStartsWith, String.data_append, hsep, List.isPrefixOf]
    refine String.ext ?_
    simp [stripLeadingSlash, hpre, String.data_drop, String.data_append, hsep]
  · intro hnp
    simp [stripLeadingSlash, hnp]

/-- Witness for C5 at a concrete key and the path `//x` (one `/` stripped,
one kept). -/
theorem C5_generate_url_exact_shape_witness :
    (generate_url (.ok "SECRET") 0 "123" "us-east-1" "dom" "repo" "//x"
        ⟨[], []⟩).1 =
      .ok ("https://aws:" ++ "SECRET" ++ "@" ++ "dom" ++ "-" ++ "123" ++
        ".d.codeartifact." ++ "us-east-1" ++ ".amazonaws.com/pypi/" ++
        "repo" ++ "/simple/" ++ stripLeadingSlash "//x") :=
  (C5_generate_url_exact_shape (.ok "SECRET") 0 "123" "us-east-1" "dom"
    "repo" "//x" "SECRET" ⟨[], []⟩ (by decide) (by decide)).1

/-- **C7** (claim false): for POST the inbound `Host` header *is* sent
upstream — `proxy_post` passes the original inbound headers to the
upstream request. -/
theorem C7_post_sends_host_counterexample :
    ("Host", "proxy.internal") ∈
      proxy_post_sent_headers
        [("Host", "proxy.internal"), ("User-Agent", "pip")] := by
  decide

/-- **C7 amended.** `proxy_get` strips the inbound `Host` header before
issuing the upstream GET, but `proxy_post` — although it computes a
`Host`-stripped copy — passes the original, unmodified inbound headers
(`Host` included) to the upstream POST. -/
theorem C7_host_header_forwarding (hs : Headers) (v : String) :
    ("Host", v) ∉ proxy_get_sent_headers hs ∧
    proxy_post_sent_headers hs = hs := by
  constructor
  · intro hmem
    have := (List.mem_filter.mp hmem).2
    simp at this
  · rfl

/-- Witness for the amended C7 at a concrete header map. -/
theorem C7_host_header_forwarding_witness :
    ("Host", "proxy.internal") ∉
      proxy_get_sent_headers [("Host", "proxy.internal"), ("User-Agent", "pip")] ∧
    proxy_post_sent_headers [("Host", "proxy.internal"), ("User-Agent", "pip")] =
      [("Host", "proxy.internal"), ("User-Agent", "pip")] :=
  C7_host_header_forwarding
    [("Host", "proxy.internal"), ("User-Agent", "pip")] "proxy.internal"

/-- **C8.** The mirror probe's outbound headers depend only on the inbound
`user-agent` and `cache-control` headers: every forwarded entry bears one
of those two names (case-insensitively), every inbound entry bearing such a
name is forwarded, and inserting any other header anywhere in the inbound
map leaves the probe headers unchanged. -/
theorem C8_probe_headers_allowlist
    (hs h1 h2 : Headers) (e : String × String) :
    (∀ q ∈ pip_headers hs,
      pyLower q.1 = "user-agent" ∨ pyLower q.1 = "cache-control") ∧
    (∀ q ∈ hs,
      (pyLower q.1 = "user-agent" ∨ pyLower q.1 = "cache-control") →
      q ∈ pip_headers hs) ∧
    (pyLower e.1 ∉ PIP_PASS_HEADERS →
      pip_headers (h1 ++ e :: h2) = pip_headers (h1 ++ h2)) := by
  refine ⟨?_, ?_, ?_⟩
  · intro q hq
    have hmem := (List.mem_filter.mp hq).2
    simpa [PIP_PASS_HEADERS] using hmem
  · intro q hq hname
    refine List.mem_filter.mpr ⟨hq, ?_⟩
    simpa [PIP_PASS_HEADERS] using hname
  · intro hne
    simp [pip_headers, List.filter_append, List.filter_cons, hne]

/-- Witness for C8: adding an `Authorization` header between `User-Agent`
and `Cache-Control` leaves the probe headers unchanged. -/
theorem C8_probe_headers_allowlist_witness :
    pip_headers ([("User-Agent", "pip")] ++ ("Authorization", "secret") ::
        [("Cache-Control", "no-cache")]) =
      pip_headers ([("User-Agent", "pip")] ++ [("Cache-Control", "no-cache")]) :=
  (C8_probe_headers_allowlist [] [("User-Agent", "pip")]
    [("Cache-Control", "no-cache")] ("Authorization", "secret")).2.2
    (by decide)

/-- **C9.** `healthz` answers 200 exactly when no key has a FailureRecord
and 500 otherwise; the unhealthy body maps every failed key to its error
message and classification; the healthy body reports the cache entry count;
and the whole output depends only on the error map and the entry count,
never on cached token values. -/
theorem C9_healthz_report (st st' : ProxyState) :
    ((healthz st).1 = 200 ↔ st.tokenErrors = []) ∧
    ((healthz st).1 = 500 ↔ st.tokenErrors ≠ []) ∧
    (st.tokenErrors ≠ [] →
      (healthz st).2 = .unhealthy
        (st.tokenErrors.map fun q => (q.1, q.2.msg, q.2.typeName))) ∧
    (st.tokenErrors = [] → (healthz st).2 = .healthy st.cache.length) ∧
    (st.tokenErrors = st'.tokenErrors → st.cache.length = st'.cache.length →
      healthz st = healthz st') := by
  refine ⟨?_, ?_, ?_, ?_, ?_⟩
  · by_cases h : st.tokenErrors = [] <;> simp [healthz, h]
  · by_cases h : st.tokenErrors = [] <;> simp [healthz, h]
  · intro h
    simp [healthz, h]
  · intro h
    simp [healthz, h]
  · intro he hl
    simp only [healthz, he, hl]

/-- Witness for C9 at concrete healthy and unhealthy states. -/
theorem C9_healthz_report_witness :
    (healthz ⟨[(("1", "us", "d", "r"), (some "SECRET", 0))], []⟩).2 =
      .healthy (⟨[(("1", "us", "d", "r"), (some "SECRET", 0))], []⟩ :
        ProxyState).cache.length ∧
    (healthz ⟨[], [("1-us-d-r", ⟨"boom", "E"⟩)]⟩).2 =
      .unhealthy ((⟨[], [("1-us-d-r", ⟨"boom", "E"⟩)]⟩ :
        ProxyState).tokenErrors.map fun q => (q.1, q.2.msg, q.2.typeName)) :=
  ⟨(C9_healthz_report ⟨[(("1", "us", "d", "r"), (some "SECRET", 0))], []⟩
      ⟨[], []⟩).2.2.2.1 rfl,
   (C9_healthz_report ⟨[], [("1-us-d-r", ⟨"boom", "E"⟩)]⟩
      ⟨[], []⟩).2.2.1 (by decide)⟩

/-- **C10.** If the CredentialProvider succeeds with the empty string,
`get_token` caches and returns the empty token with no FailureRecord;
`generate_url` treats it as a failure and raises an error naming the key;
a request for the key therefore answers a 500 error body while `healthz`
keeps answering 200/healthy; and the cached empty token keeps being
returned with no new provider call until its TTL elapses. -/
theorem C10_empty_token_fails_requests_but_reports_healthy
    (now : Time) (a r d p path : String) (st : ProxyState)
    (probe : ProbeOutcome)
    (hmiss : cacheLookup st now (a, r, d, p) = none)
    (herr : st.tokenErrors = []) :
    (get_token (.ok "") now a r d p st).result = some "" ∧
    (get_token (.ok "") now a r d p st).providerCalled = true ∧
    (get_token (.ok "") now a r d p st).state.tokenErrors = [] ∧
    (healthz (get_token (.ok "") now a r d p st).state).1 = 200 ∧
    (generate_url (.ok "") now a r d p path st).1 =
      .error ("Failed to get token for " ++ get_cache_key a r d p) ∧
    (pyEndsWith path "/" = false →
      (proxy_handle_get probe (.ok "") now a r d p path st).1 =
        .serverError ("Failed to get token for " ++ get_cache_key a r d p)) ∧
    (∀ prov' t', t' < now + TOKEN_VALIDITY →
      get_token prov' t' a r d p (get_token (.ok "") now a r d p st).state =
        ⟨some "", (get_token (.ok "") now a r d p st).state, false⟩) := by
  have e1 := get_token_miss_ok "" now a r d p st hmiss
  have herrs : (get_token (.ok "") now a r d p st).state.tokenErrors = [] := by
    rw [e1]
    simp [herr, aerase]
  refine ⟨by rw [e1], by rw [e1], herrs, ?_, ?_, ?_, ?_⟩
  · simp [healthz, herrs]
  · simp [generate_url, e1]
  · intro hnp
    simp [proxy_handle_get, hnp, generate_url, e1]
  · intro prov' t' ht
    rw [e1]
    exact get_token_hit prov' t' a r d p _ (some "")
      (cacheLookup_ainsert_self _ _ _ _ _ _ ht)

/-- Witness for C10 at a concrete key, time and path. -/
theorem C10_empty_token_fails_requests_but_reports_healthy_witness :
    (get_token (.ok "") 0 "1" "us" "d" "r" ⟨[], []⟩).result = some "" ∧
    (healthz (get_token (.ok "") 0 "1" "us" "d" "r" ⟨[], []⟩).state).1 = 200 ∧
    (generate_url (.ok "") 0 "1" "us" "d" "r" "x" ⟨[], []⟩).1 =
      .error ("Failed to get token for " ++ get_cache_key "1" "us" "d" "r") ∧
    (proxy_handle_get .err (.ok "") 0 "1" "us" "d" "r" "x" ⟨[], []⟩).1 =
      .serverError ("Failed to get token for " ++ get_cache_key "1" "us" "d" "r") :=
  have h := C10_empty_token_fails_requests_but_reports_healthy
    0 "1" "us" "d" "r" "x" ⟨[], []⟩ .err (by decide) rfl
  ⟨h.1, h.2.2.2.1, h.2.2.2.2.1, h.2.2.2.2.2.1 (by decide)⟩

end CodeArtifactProxy
